import Mathlib

/-!
Shallow embedding of the backend gateway in `app/main.py`: the GNews API-key
rotator, the outbound fetch helper, the news query handlers, the auth
forwarding handlers, and the user-data (saved/history) handlers.

External collaborators (the GNews HTTP API, the Supabase auth and table
clients) are modelled as explicit parameters carrying the outcome of the
external call; the handlers' own logic (validation, parameter assembly,
error translation, record construction, cursor mutation) is translated
directly from the source.

Python strings are Lean `String`s; Python dicts used as JSON-ish parameter
or record maps are association lists `List (String × Val)` with Python's
insertion-order update semantics (`dictSet`).
-/

/-- Mirrors FastAPI's `HTTPException(status_code=..., detail=...)`. -/
structure HTTPException where
  status_code : Nat
  detail : String
deriving DecidableEq, Repr

/-- JSON-ish values appearing in the request parameter dicts and the
stored records: strings, integers (`max=9`, `page`), and `None`. -/
inductive Val where
  | s (v : String)
  | n (v : Int)
  | null
deriving DecidableEq, Repr

/-- Python dict assignment `d[k] = v`: update the existing binding in place
if the key is present, otherwise append the new binding at the end. -/
def dictSet (d : List (String × Val)) (k : String) (v : Val) :
    List (String × Val) :=
  if d.any (fun p => p.1 = k) then
    d.map (fun p => if p.1 = k then (k, v) else p)
  else
    d ++ [(k, v)]

/-- Python dict lookup `d.get(k)`: the value of the first binding of `k`. -/
def dictGet (d : List (String × Val)) (k : String) : Option Val :=
  (d.find? (fun p => p.1 = k)).map (fun p => p.2)

/-- `get_gnews_api_key` from `main.py`: given the configured key list
`GNEWS_API_KEYS` and the global `current_api_key_index`, raise HTTP 500 if
no keys are configured (leaving the index untouched), otherwise return the
key at the current index and set the index to `(index + 1) % len(keys)`.
The returned `Nat` is the value of the global after the call. -/
def get_gnews_api_key (keys : List String) (idx : Nat) :
    Except HTTPException String × Nat :=
  if keys.isEmpty then
    (Except.error ⟨500, "GNews API keys not configured."⟩, idx)
  else
    (Except.ok (keys.getD idx ""), (idx + 1) % keys.length)

/-- The sequence of keys produced by `n` successive calls to
`get_gnews_api_key`, starting from cursor `idx`. -/
def rotateCalls (keys : List String) : Nat → Nat → List String
  | _, 0 => []
  | idx, n + 1 =>
    match get_gnews_api_key keys idx with
    | (Except.ok k, idx2) => k :: rotateCalls keys idx2 n
    | (Except.error _, _) => []

/-- The token-extraction expression shared by all four user-data handlers:
`authorization.split(" ")[1] if " " in authorization else authorization`.
`splitOnSpace` mirrors Python's `str.split(" ")` (split at every single
space, keeping empty segments). -/
def splitOnSpace : List Char → List (List Char)
  | [] => [[]]
  | c :: rest =>
    match splitOnSpace rest with
    | [] => [[]]
    | h :: t => if c = ' ' then [] :: h :: t else (c :: h) :: t

/-- Bearer-token extraction used identically in `get_saved_news`,
`get_user_history`, `save_article` and `add_to_history`. -/
def extract_token (authorization : String) : String :=
  if authorization.data.any (fun c => c = ' ') then
    String.mk ((splitOnSpace authorization.data).getD 1 [])
  else authorization

/-- The characters of `l` strictly after its first space (empty if `l` has
no space). Used to state the spec's reading of token extraction. -/
def afterFirstSpace : List Char → List Char
  | [] => []
  | c :: rest => if c = ' ' then rest else afterFirstSpace rest

/-- Token extraction as the spec words it: if the header contains a space,
the token is the whole substring after the FIRST space; otherwise the
header verbatim. (To be compared against `extract_token`.) -/
def extract_token_spec (authorization : String) : String :=
  if authorization.data.any (fun c => c = ' ') then
    String.mk (afterFirstSpace authorization.data)
  else authorization

deriving instance DecidableEq for Except

/-- The outcome of `fetch_gnews`: the handler result (response JSON body,
modelled opaquely as a string, or the raised `HTTPException`), the value of
the global key cursor after the call, and the contents of the
caller-supplied `params` dict after the call (Python mutates it in place). -/
structure FetchOut where
  result : Except HTTPException String
  cursor : Nat
  params : List (String × Val)
deriving DecidableEq, Repr

/-- `fetch_gnews(endpoint, params)` from `main.py`: take a key from the
rotator (propagating its HTTP 500 if none are configured), set
`params["apikey"] = api_key`, issue the GET (its outcome is the `upstream`
parameter: response body on success, exception description on any
`RequestException`, which covers transport failures and, via
`raise_for_status`, non-success HTTP statuses), and on failure raise
HTTP 400 with detail `"Error fetching from GNews: {e}"`. -/
def fetch_gnews (keys : List String) (idx : Nat) (endpoint : String)
    (params : List (String × Val)) (upstream : Except String String) :
    FetchOut :=
  match get_gnews_api_key keys idx with
  | (Except.error ex, idx2) => ⟨Except.error ex, idx2, params⟩
  | (Except.ok api_key, idx2) =>
    let params2 := dictSet params "apikey" (Val.s api_key)
    match upstream with
    | Except.ok body => ⟨Except.ok body, idx2, params2⟩
    | Except.error e =>
      ⟨Except.error ⟨400, "Error fetching from GNews: " ++ e⟩, idx2, params2⟩

/-- Python's `str.lower()` restricted to ASCII, as used on category names
(`category_name.lower()`). -/
def pyLower (s : String) : String := String.mk (s.data.map Char.toLower)

/-- `get_top_headlines(page=1, lang='en')`: params `{lang, max: 9, page}`,
endpoint `top-headlines`. Returns the handler result and the cursor after
the call. The `endpoint` note in the source: 9 = 3 cards x 3 rows. -/
def get_top_headlines (keys : List String) (idx : Nat) (page : Int)
    (lang : String) (upstream : Except String String) :
    Except HTTPException String × Nat :=
  let out := fetch_gnews keys idx "top-headlines"
    [("lang", Val.s lang), ("max", Val.n 9), ("page", Val.n page)] upstream
  (out.result, out.cursor)

/-- `get_news_by_category(category_name, page=1, lang='en')`: params
`{topic: category_name.lower(), lang, max: 9, page}`, endpoint
`top-headlines`. No validation of the category. -/
def get_news_by_category (keys : List String) (idx : Nat)
    (category_name : String) (page : Int) (lang : String)
    (upstream : Except String String) :
    Except HTTPException String × Nat :=
  let out := fetch_gnews keys idx "top-headlines"
    [("topic", Val.s (pyLower category_name)), ("lang", Val.s lang),
     ("max", Val.n 9), ("page", Val.n page)] upstream
  (out.result, out.cursor)

/-- `search_news(q, page=1, lang='en')`: raise HTTP 400 if `q` is falsy
(the empty string) before building params or touching the rotator;
otherwise params `{q, lang, max: 9, page, sortby: publishedAt}`, endpoint
`search`. -/
def search_news (keys : List String) (idx : Nat) (q : String) (page : Int)
    (lang : String) (upstream : Except String String) :
    Except HTTPException String × Nat :=
  if q = "" then
    (Except.error ⟨400, "Search query parameter 'q' is required."⟩, idx)
  else
    let out := fetch_gnews keys idx "search"
      [("q", Val.s q), ("lang", Val.s lang), ("max", Val.n 9),
       ("page", Val.n page), ("sortby", Val.s "publishedAt")] upstream
    (out.result, out.cursor)

/-- `signup`: forwards to `supabase.auth.sign_up`; `auth` is that call's
outcome (the returned `(user, session)` pair, opaque, or the exception's
`str(e)`). Success passes the pair through; any failure becomes
HTTP 400 with the upstream message as detail. -/
def signup (auth : Except String (String × String)) :
    Except HTTPException (String × String) :=
  match auth with
  | Except.ok u => Except.ok u
  | Except.error e => Except.error ⟨400, e⟩

/-- `login`: forwards to `supabase.auth.sign_in_with_password`; `auth` is
that call's outcome. Success passes `(user, session)` through; any failure
becomes HTTP 401 with the fixed detail `"Invalid login credentials."`,
never the upstream message. -/
def login (auth : Except String (String × String)) :
    Except HTTPException (String × String) :=
  match auth with
  | Except.ok u => Except.ok u
  | Except.error _ => Except.error ⟨401, "Invalid login credentials."⟩

/-- The `NewsArticle` pydantic model: the only fields a parsed request body
can have (extra body fields such as a caller-supplied `user_id` are not part
of the model and never reach the handler). -/
structure NewsArticle where
  title : String
  description : String
  content : Option String
  url : String
  image : Option String
  publishedAt : Option String
deriving DecidableEq, Repr

def optVal : Option String → Val
  | none => Val.null
  | some v => Val.s v

/-- `article.dict()`: the article's fields as a record, in declaration
order. -/
def NewsArticle.dict (a : NewsArticle) : List (String × Val) :=
  [("title", Val.s a.title), ("description", Val.s a.description),
   ("content", optVal a.content), ("url", Val.s a.url),
   ("image", optVal a.image), ("publishedAt", optVal a.publishedAt)]

/-- The outcome of a write handler: the handler result (the fixed
acknowledgement message or the raised `HTTPException`) and the record
handed to the external insert (`none` when no insert was attempted). -/
structure WriteOut where
  result : Except HTTPException String
  inserted : Option (List (String × Val))
deriving Repr

/-- `save_article(article, authorization)`: 401 `"Unauthorized"` without a
header; extract the token; resolve it via `supabase.auth.get_user` (the
external call is `resolveUser`, returning `user.user.id` or failing), any
resolution failure is 401 `"Invalid token"`; then build
`record = article.dict(); record['user_id'] = user_id`, insert it into the
`savednews` table (outcome `insertResult`), mapping insert failure to
HTTP 500 `"Failed to save article: {e}"` and success to the fixed message
`"Article saved"`. -/
def save_article (article : NewsArticle) (authorization : Option String)
    (resolveUser : String → Except String String)
    (insertResult : Except String Unit) : WriteOut :=
  match authorization with
  | none => ⟨Except.error ⟨401, "Unauthorized"⟩, none⟩
  | some header =>
    let token := extract_token header
    match resolveUser token with
    | Except.error _ => ⟨Except.error ⟨401, "Invalid token"⟩, none⟩
    | Except.ok user_id =>
      let record := dictSet (NewsArticle.dict article) "user_id" (Val.s user_id)
      match insertResult with
      | Except.error e =>
        ⟨Except.error ⟨500, "Failed to save article: " ++ e⟩, some record⟩
      | Except.ok _ => ⟨Except.ok "Article saved", some record⟩

/-- `add_to_history(article, authorization)`: same header check and token
extraction as `save_article`, but the token resolution AND the `history`
table insert sit in one `try` block whose `except` raises
401 `"Invalid token"` — so an insert failure is also reported as 401.
Success returns the fixed message `"Article added to history"`. -/
def add_to_history (article : NewsArticle) (authorization : Option String)
    (resolveUser : String → Except String String)
    (insertResult : Except String Unit) : WriteOut :=
  match authorization with
  | none => ⟨Except.error ⟨401, "Unauthorized"⟩, none⟩
  | some header =>
    let token := extract_token header
    match resolveUser token with
    | Except.error _ => ⟨Except.error ⟨401, "Invalid token"⟩, none⟩
    | Except.ok user_id =>
      let record := dictSet (NewsArticle.dict article) "user_id" (Val.s user_id)
      match insertResult with
      | Except.error _ => ⟨Except.error ⟨401, "Invalid token"⟩, some record⟩
      | Except.ok _ => ⟨Except.ok "Article added to history", some record⟩

/-- `get_saved_news(authorization)`: 401 `"Unauthorized"` without a header;
extract the token; resolve it (failure, or a failure of the subsequent
`savednews` select, is 401 `"Invalid token"`); return the selected rows for
the resolved user id. `selectRows` is the external
`table('savednews').select("*").eq('user_id', user_id)` call, keyed by the
user id. -/
def get_saved_news (authorization : Option String)
    (resolveUser : String → Except String String)
    (selectRows : String → Except String (List (List (String × Val)))) :
    Except HTTPException (List (List (String × Val))) :=
  match authorization with
  | none => Except.error ⟨401, "Unauthorized"⟩
  | some header =>
    let token := extract_token header
    match resolveUser token with
    | Except.error _ => Except.error ⟨401, "Invalid token"⟩
    | Except.ok user_id =>
      match selectRows user_id with
      | Except.error _ => Except.error ⟨401, "Invalid token"⟩
      | Except.ok rows => Except.ok rows

/-- `get_user_history(authorization)`: identical to `get_saved_news` except
the select targets the `history` table. -/
def get_user_history (authorization : Option String)
    (resolveUser : String → Except String String)
    (selectRows : String → Except String (List (List (String × Val)))) :
    Except HTTPException (List (List (String × Val))) :=
  match authorization with
  | none => Except.error ⟨401, "Unauthorized"⟩
  | some header =>
    let token := extract_token header
    match resolveUser token with
    | Except.error _ => Except.error ⟨401, "Invalid token"⟩
    | Except.ok user_id =>
      match selectRows user_id with
      | Except.error _ => Except.error ⟨401, "Invalid token"⟩
      | Except.ok rows => Except.ok rows

/-! ## Rotator lemmas -/

lemma isEmpty_false_of_ne_nil {keys : List String} (h : keys ≠ []) :
    keys.isEmpty = false := by
  cases keys with
  | nil => exact absurd rfl h
  | cons a t => rfl

lemma rotateCalls_formula (keys : List String) (h : keys ≠ []) :
    ∀ (n idx : Nat), idx < keys.length →
      rotateCalls keys idx n
        = (List.range n).map (fun j => keys.getD ((idx + j) % keys.length) "") := by
  intro n
  induction n with
  | zero => intro idx _; simp [rotateCalls]
  | succ n ih =>
    intro idx hidx
    have hne := isEmpty_false_of_ne_nil h
    have hlen : 0 < keys.length := List.length_pos.mpr h
    rw [rotateCalls, get_gnews_api_key, hne]
    simp only [Bool.false_eq_true, if_false]
    rw [ih _ (Nat.mod_lt _ hlen)]
    rw [List.range_succ_eq_map, List.map_cons, List.map_map]
    congr 1
    · rw [Nat.add_zero, Nat.mod_eq_of_lt hidx]
    · apply List.map_congr_left
      intro j hj
      simp only [Function.comp_apply]
      rw [Nat.mod_add_mod]
      have hadd : idx + 1 + j = idx + Nat.succ j := by omega
      rw [hadd]

lemma map_getD_range (l : List String) :
    (List.range l.length).map (fun j => l.getD j "") = l := by
  induction l with
  | nil => simp
  | cons a t ih =>
    rw [List.length_cons, List.range_succ_eq_map, List.map_cons, List.map_map]
    simp only [Function.comp_def, List.getD_cons_zero, List.getD_cons_succ]
    rw [ih]

lemma rotate_two_cycles (keys : List String) (h : keys ≠ []) :
    rotateCalls keys 0 (2 * keys.length) = keys ++ keys := by
  have hlen : 0 < keys.length := List.length_pos.mpr h
  rw [rotateCalls_formula keys h _ 0 hlen]
  have h2 : 2 * keys.length = keys.length + keys.length := by ring
  rw [h2, List.range_add, List.map_append, List.map_map]
  have hfst : (List.range keys.length).map
      (fun j => keys.getD ((0 + j) % keys.length) "") = keys := by
    have hcongr : ∀ j ∈ List.range keys.length,
        keys.getD ((0 + j) % keys.length) "" = keys.getD j "" := by
      intro j hj
      rw [List.mem_range] at hj
      rw [Nat.zero_add, Nat.mod_eq_of_lt hj]
    rw [List.map_congr_left hcongr, map_getD_range]
  have hsnd : (List.range keys.length).map
      ((fun j => keys.getD ((0 + j) % keys.length) "")
        ∘ fun x => keys.length + x) = keys := by
    have hcongr : ∀ j ∈ List.range keys.length,
        ((fun j => keys.getD ((0 + j) % keys.length) "")
          ∘ fun x => keys.length + x) j = keys.getD j "" := by
      intro j hj
      rw [List.mem_range] at hj
      simp only [Function.comp_apply]
      rw [Nat.zero_add, Nat.add_mod_left, Nat.mod_eq_of_lt hj]
    rw [List.map_congr_left hcongr, map_getD_range]
  rw [hfst, hsnd]

/-- C1: for a non-empty key list of length N, each rotator call returns the
key at the current cursor and sets the cursor to `(index + 1) % N`, which
stays in `[0, N)`; and 2N successive calls from a fresh cursor return the
configured keys twice over, in stable round-robin order. -/
theorem C1_rotator_round_robin (keys : List String) (h : keys ≠ []) :
    (∀ idx, idx < keys.length →
      get_gnews_api_key keys idx
          = (Except.ok (keys.getD idx ""), (idx + 1) % keys.length)
        ∧ (idx + 1) % keys.length < keys.length)
    ∧ rotateCalls keys 0 (2 * keys.length) = keys ++ keys := by
  have hlen : 0 < keys.length := List.length_pos.mpr h
  have hne := isEmpty_false_of_ne_nil h
  refine ⟨fun idx _ => ⟨?_, Nat.mod_lt _ hlen⟩, rotate_two_cycles keys h⟩
  rw [get_gnews_api_key, hne]
  simp

/-- C1 instantiated at a concrete three-key configuration. -/
theorem C1_rotator_round_robin_witness :
    (["k1", "k2", "k3"] : List String) ≠ []
    ∧ rotateCalls ["k1", "k2", "k3"] 0 6
        = ["k1", "k2", "k3", "k1", "k2", "k3"] := by
  refine ⟨by decide, ?_⟩
  have h2 := (C1_rotator_round_robin ["k1", "k2", "k3"] (by decide)).2
  simpa using h2

/-- C2: with an empty key list the rotator always raises HTTP 500
("GNews API keys not configured."), never returns a key, and leaves the
cursor unchanged. -/
theorem C2_rotator_empty_fails (idx : Nat) :
    get_gnews_api_key [] idx
      = (Except.error ⟨500, "GNews API keys not configured."⟩, idx)
    ∧ ∀ k : String, (get_gnews_api_key [] idx).1 ≠ Except.ok k := by
  constructor
  · rfl
  · intro k hk
    simp [get_gnews_api_key] at hk

/-! ## Token-extraction lemmas -/

def notSpace (c : Char) : Bool := if c = ' ' then false else true

lemma splitOnSpace_head (l : List Char) :
    ∃ t, splitOnSpace l = l.takeWhile notSpace :: t := by
  induction l with
  | nil => exact ⟨[], rfl⟩
  | cons c rest ih =>
    obtain ⟨t, ht⟩ := ih
    by_cases hc : c = ' '
    · refine ⟨splitOnSpace rest, ?_⟩
      rw [List.takeWhile_cons]
      simp [splitOnSpace, hc, ht, notSpace]
    · refine ⟨t, ?_⟩
      rw [List.takeWhile_cons]
      simp [splitOnSpace, hc, ht, notSpace]

lemma splitOnSpace_getD_one (l : List Char)
    (h : l.any (fun c => c = ' ') = true) :
    (splitOnSpace l).getD 1 []
      = (afterFirstSpace l).takeWhile notSpace := by
  induction l with
  | nil => simp at h
  | cons c rest ih =>
    by_cases hc : c = ' '
    · obtain ⟨t, ht⟩ := splitOnSpace_head rest
      simp [splitOnSpace, hc, ht, afterFirstSpace]
    · have hrest : rest.any (fun c => c = ' ') = true := by
        simp [hc] at h
        simpa using h
      obtain ⟨t, ht⟩ := splitOnSpace_head rest
      rw [afterFirstSpace, if_neg hc, ← ih hrest]
      simp [splitOnSpace, hc, ht]

/-- C3 counterexample: for the header "Bearer abc def" the code's token is
"abc" (the segment before the SECOND space), not the substring after the
first space, "abc def", that the claim prescribes. -/
theorem C3_counterexample :
    extract_token "Bearer abc def" = "abc"
    ∧ extract_token_spec "Bearer abc def" = "abc def"
    ∧ extract_token "Bearer abc def" ≠ extract_token_spec "Bearer abc def" :=
  ⟨rfl, rfl, by decide⟩

/-- C3 (amended): if the header contains a space, the extracted token is
the run of non-space characters immediately after the first space — the
segment between the first space and the following space or end of string
(Python's `split(" ")[1]`); otherwise the header is used verbatim. In
particular "Bearer abc123" yields "abc123" and "abc123" yields "abc123".
The rule is the one function `extract_token`, shared by all four handlers
(`get_saved_news`, `get_user_history`, `save_article`, `add_to_history`). -/
theorem C3_token_between_first_spaces (a : String) :
    extract_token a
      = (if a.data.any (fun c => c = ' ')
         then String.mk ((afterFirstSpace a.data).takeWhile notSpace)
         else a) := by
  rw [extract_token]
  by_cases hsp : a.data.any (fun c => c = ' ') = true
  · rw [if_pos hsp, if_pos hsp, splitOnSpace_getD_one a.data hsp]
  · rw [if_neg hsp, if_neg hsp]

/-! ## Dict lemmas -/

lemma find?_map_update (d : List (String × Val)) (k : String) (v : Val)
    (h : d.any (fun p => p.1 = k) = true) :
    (d.map (fun p => if p.1 = k then (k, v) else p)).find?
        (fun p => p.1 = k) = some (k, v) := by
  induction d with
  | nil => simp at h
  | cons p t ih =>
    by_cases hp : p.1 = k
    · simp [hp]
    · have ht : t.any (fun q => q.1 = k) = true := by
        simpa [hp] using h
      simp [hp, ih ht]

lemma dictGet_dictSet (d : List (String × Val)) (k : String) (v : Val) :
    dictGet (dictSet d k v) k = some v := by
  rw [dictSet]
  by_cases h : d.any (fun p => p.1 = k) = true
  · rw [if_pos h, dictGet, find?_map_update d k v h]
    rfl
  · rw [if_neg h, dictGet, List.find?_append]
    have hnone : d.find? (fun p => p.1 = k) = none := by
      rw [List.find?_eq_none]
      intro x hx hpx
      apply h
      rw [List.any_eq_true]
      exact ⟨x, hx, hpx⟩
    rw [hnone]
    simp

/-- C4 counterexample: the login handler's fixed 401 detail is
"Invalid login credentials." (trailing period), which is not the exact
string "Invalid login credentials" the claim prescribes. -/
theorem C4_counterexample :
    login (Except.error "upstream says no") = Except.error ⟨401, "Invalid login credentials."⟩
    ∧ login (Except.error "upstream says no")
        ≠ Except.error ⟨401, "Invalid login credentials"⟩ :=
  ⟨rfl, by decide⟩

/-- C4 (amended): every login failure yields HTTP 401 with the fixed detail
"Invalid login credentials." (with a trailing period) and never the
upstream error message; every signup failure yields HTTP 400 whose detail
is exactly the upstream error message. -/
theorem C4_auth_error_asymmetry (e : String) :
    login (Except.error e) = Except.error ⟨401, "Invalid login credentials."⟩
    ∧ signup (Except.error e) = Except.error ⟨400, e⟩ :=
  ⟨rfl, rfl⟩

/-- C5 counterexample: on an upstream failure the fetch helper raises
HTTP 400 whose detail is only "Error fetching from GNews: " plus the
failure description — two calls differing in endpoint and params raise the
identical exception, so the error does not carry the endpoint or the
params-minus-credential the claim prescribes. -/
theorem C5_counterexample :
    (fetch_gnews ["k"] 0 "search" [("q", Val.s "x")] (Except.error "boom")).result
      = (fetch_gnews ["k"] 0 "top-headlines" [("lang", Val.s "en")]
          (Except.error "boom")).result
    ∧ (fetch_gnews ["k"] 0 "search" [("q", Val.s "x")] (Except.error "boom")).result
      = Except.error ⟨400, "Error fetching from GNews: boom"⟩ :=
  ⟨rfl, rfl⟩

/-- C5 (amended): with at least one configured key, every transport
failure or non-success HTTP status (both arrive as a RequestException
description `e`) makes the fetch helper raise HTTP 400 — surfaced to the
client as such — whose detail is "Error fetching from GNews: " followed by
the underlying failure description only; the endpoint and the params are
not part of the error. -/
theorem C5_upstream_error_maps_to_400 (keys : List String) (idx : Nat)
    (endpoint : String) (params : List (String × Val)) (e : String)
    (h : keys ≠ []) :
    (fetch_gnews keys idx endpoint params (Except.error e)).result
      = Except.error ⟨400, "Error fetching from GNews: " ++ e⟩ := by
  have hne := isEmpty_false_of_ne_nil h
  rw [fetch_gnews, get_gnews_api_key, hne]
  simp

/-- C5 amended theorem instantiated at a concrete failing call. -/
theorem C5_upstream_error_maps_to_400_witness :
    (["k1"] : List String) ≠ []
    ∧ (fetch_gnews ["k1"] 0 "search" [("q", Val.s "x")]
        (Except.error "timeout")).result
      = Except.error ⟨400, "Error fetching from GNews: timeout"⟩ :=
  ⟨by decide, C5_upstream_error_maps_to_400 ["k1"] 0 "search"
    [("q", Val.s "x")] "timeout" (by decide)⟩

/-! ## Fetch-helper lemmas -/

lemma fetch_cursor_eq (keys : List String) (idx : Nat) (endpoint : String)
    (params : List (String × Val)) (upstream : Except String String)
    (h : keys ≠ []) :
    (fetch_gnews keys idx endpoint params upstream).cursor
      = (idx + 1) % keys.length := by
  have hne := isEmpty_false_of_ne_nil h
  cases upstream with
  | ok body => rw [fetch_gnews, get_gnews_api_key, hne]; simp
  | error e => rw [fetch_gnews, get_gnews_api_key, hne]; simp

lemma fetch_params_eq (keys : List String) (idx : Nat) (endpoint : String)
    (params : List (String × Val)) (upstream : Except String String)
    (h : keys ≠ []) :
    (fetch_gnews keys idx endpoint params upstream).params
      = dictSet params "apikey" (Val.s (keys.getD idx "")) := by
  have hne := isEmpty_false_of_ne_nil h
  cases upstream with
  | ok body => rw [fetch_gnews, get_gnews_api_key, hne]; simp
  | error e => rw [fetch_gnews, get_gnews_api_key, hne]; simp

lemma fetch_result_ok (keys : List String) (idx : Nat) (endpoint : String)
    (params : List (String × Val)) (body : String) (h : keys ≠ []) :
    (fetch_gnews keys idx endpoint params (Except.ok body)).result
      = Except.ok body := by
  have hne := isEmpty_false_of_ne_nil h
  rw [fetch_gnews, get_gnews_api_key, hne]
  simp

/-- C6: with an empty `q` the search handler raises HTTP 400 before any
outbound call — the cursor is untouched and the result does not depend on
the upstream outcome at all; with a non-empty `q` it delegates to the fetch
helper on endpoint `search` with params
`{q, lang, max: 9, page, sortby: publishedAt}`. -/
theorem C6_search_empty_q_validates_first (keys : List String) (idx : Nat)
    (q : String) (page : Int) (lang : String)
    (upstream : Except String String) :
    (q = "" →
      search_news keys idx q page lang upstream
        = (Except.error ⟨400, "Search query parameter 'q' is required."⟩, idx)
      ∧ ∀ up2 : Except String String,
          search_news keys idx q page lang upstream
            = search_news keys idx q page lang up2)
    ∧ (q ≠ "" →
      search_news keys idx q page lang upstream
        = ((fetch_gnews keys idx "search"
            [("q", Val.s q), ("lang", Val.s lang), ("max", Val.n 9),
             ("page", Val.n page), ("sortby", Val.s "publishedAt")]
            upstream).result,
           (fetch_gnews keys idx "search"
            [("q", Val.s q), ("lang", Val.s lang), ("max", Val.n 9),
             ("page", Val.n page), ("sortby", Val.s "publishedAt")]
            upstream).cursor)) := by
  constructor
  · intro hq
    subst hq
    exact ⟨rfl, fun up2 => rfl⟩
  · intro hq
    rw [search_news, if_neg hq]

/-- C6 instantiated: an empty query against a configured key list yields
HTTP 400 with the cursor still at 0. -/
theorem C6_search_empty_q_witness :
    ("" : String) = ""
    ∧ search_news ["k1"] 0 "" 1 "en" (Except.ok "body")
        = (Except.error ⟨400, "Search query parameter 'q' is required."⟩, 0) :=
  ⟨rfl, ((C6_search_empty_q_validates_first ["k1"] 0 "" 1 "en"
    (Except.ok "body")).1 rfl).1⟩

/-- C7: the by-category handler delegates to the fetch helper on endpoint
`top-headlines` with params `{topic: lower(category), lang, max: 9, page}`;
the `topic` parameter sent upstream is the lowercased category; and no
category is ever rejected — with a configured key and a successful upstream
call the handler succeeds for every category string. -/
theorem C7_category_lowercased_passthrough (keys : List String) (idx : Nat)
    (category_name : String) (page : Int) (lang : String)
    (upstream : Except String String) (h : keys ≠ []) :
    get_news_by_category keys idx category_name page lang upstream
      = ((fetch_gnews keys idx "top-headlines"
          [("topic", Val.s (pyLower category_name)), ("lang", Val.s lang),
           ("max", Val.n 9), ("page", Val.n page)] upstream).result,
         (fetch_gnews keys idx "top-headlines"
          [("topic", Val.s (pyLower category_name)), ("lang", Val.s lang),
           ("max", Val.n 9), ("page", Val.n page)] upstream).cursor)
    ∧ dictGet (fetch_gnews keys idx "top-headlines"
          [("topic", Val.s (pyLower category_name)), ("lang", Val.s lang),
           ("max", Val.n 9), ("page", Val.n page)] upstream).params "topic"
        = some (Val.s (pyLower category_name))
    ∧ (∀ body, upstream = Except.ok body →
        (get_news_by_category keys idx category_name page lang upstream).1
          = Except.ok body) := by
  refine ⟨rfl, ?_, ?_⟩
  · rw [fetch_params_eq _ _ _ _ _ h]
    simp [dictSet, dictGet]
  · intro body hb
    subst hb
    show (fetch_gnews keys idx "top-headlines" _ (Except.ok body)).result
      = Except.ok body
    exact fetch_result_ok keys idx _ _ body h

/-- C7 instantiated: category "Technology" is sent upstream as topic
"technology". -/
theorem C7_category_witness :
    (["k1"] : List String) ≠ []
    ∧ dictGet (fetch_gnews ["k1"] 0 "top-headlines"
          [("topic", Val.s (pyLower "Technology")), ("lang", Val.s "en"),
           ("max", Val.n 9), ("page", Val.n 1)] (Except.ok "body")).params
          "topic"
        = some (Val.s "technology") := by
  refine ⟨by decide, ?_⟩
  have h2 := (C7_category_lowercased_passthrough ["k1"] 0 "Technology" 1 "en"
    (Except.ok "body") (by decide)).2.1
  have hlow : pyLower "Technology" = "technology" := by decide
  rw [hlow] at h2
  exact h2

/-- C10: every fetch-helper call with a non-empty key list advances the
rotation cursor exactly once — to `(idx + 1) % N` — for success and failure
outcomes alike, and leaves the taken key in the caller's params dict under
"apikey", so the credential is present in the params after the call,
including on the failure path. -/
theorem C10_fetch_frame_effects (keys : List String) (idx : Nat)
    (endpoint : String) (params : List (String × Val))
    (upstream : Except String String) (h : keys ≠ []) :
    (fetch_gnews keys idx endpoint params upstream).cursor
        = (idx + 1) % keys.length
    ∧ dictGet (fetch_gnews keys idx endpoint params upstream).params "apikey"
        = some (Val.s (keys.getD idx "")) := by
  refine ⟨fetch_cursor_eq keys idx endpoint params upstream h, ?_⟩
  rw [fetch_params_eq keys idx endpoint params upstream h, dictGet_dictSet]

/-- C10 instantiated at a failing upstream call: the cursor still advances
and the key is still in the params. -/
theorem C10_fetch_frame_effects_witness :
    (["k1", "k2"] : List String) ≠ []
    ∧ (fetch_gnews ["k1", "k2"] 0 "search" [("q", Val.s "x")]
        (Except.error "boom")).cursor = 1
    ∧ dictGet (fetch_gnews ["k1", "k2"] 0 "search" [("q", Val.s "x")]
        (Except.error "boom")).params "apikey" = some (Val.s "k1") := by
  refine ⟨by decide, ?_, ?_⟩
  · have h2 := (C10_fetch_frame_effects ["k1", "k2"] 0 "search"
      [("q", Val.s "x")] (Except.error "boom") (by decide)).1
    simpa using h2
  · have h2 := (C10_fetch_frame_effects ["k1", "k2"] 0 "search"
      [("q", Val.s "x")] (Except.error "boom") (by decide)).2
    simpa using h2

/-- C8: when the token resolves, the record the saved-articles write hands
to the insert is exactly the article's fields followed by the resolved user
id under "user_id". The parsed body can never supply a "user_id" of its
own: no key of `article.dict()` is "user_id", so the attached owner field
is always the freshly appended one. -/
theorem C8_save_attaches_user_id (article : NewsArticle) (header : String)
    (resolveUser : String → Except String String) (uid : String)
    (insertResult : Except String Unit)
    (h : resolveUser (extract_token header) = Except.ok uid) :
    (save_article article (some header) resolveUser insertResult).inserted
      = some (NewsArticle.dict article ++ [("user_id", Val.s uid)])
    ∧ (NewsArticle.dict article).any (fun p => p.1 = "user_id") = false
    ∧ dictGet (NewsArticle.dict article ++ [("user_id", Val.s uid)]) "user_id"
      = some (Val.s uid) := by
  have hany : (NewsArticle.dict article).any (fun p => p.1 = "user_id")
      = false := by
    simp [NewsArticle.dict]
  have hrec : dictSet (NewsArticle.dict article) "user_id" (Val.s uid)
      = NewsArticle.dict article ++ [("user_id", Val.s uid)] := by
    rw [dictSet, hany]
    simp
  refine ⟨?_, hany, by rw [← hrec, dictGet_dictSet]⟩
  cases insertResult with
  | ok u => simp [save_article, h, hrec]
  | error e => simp [save_article, h, hrec]

/-- C8 instantiated at a concrete article, header and resolved user. -/
theorem C8_save_attaches_user_id_witness :
    ((fun _ => Except.ok "user-1" : String → Except String String)
        (extract_token "Bearer tok") = Except.ok "user-1")
    ∧ (save_article ⟨"t", "d", none, "u", none, none⟩ (some "Bearer tok")
        (fun _ => Except.ok "user-1") (Except.ok ())).inserted
      = some [("title", Val.s "t"), ("description", Val.s "d"),
              ("content", Val.null), ("url", Val.s "u"),
              ("image", Val.null), ("publishedAt", Val.null),
              ("user_id", Val.s "user-1")] := by
  refine ⟨rfl, ?_⟩
  have h2 := (C8_save_attaches_user_id ⟨"t", "d", none, "u", none, none⟩
    "Bearer tok" (fun _ => Except.ok "user-1") "user-1" (Except.ok ()) rfl).1
  simpa [NewsArticle.dict, optVal] using h2

/-- C9: with a resolved token, an insert failure makes the saved-articles
write raise HTTP 500 ("Failed to save article: {e}") while the history
write maps the same failure to HTTP 401 ("Invalid token"); the success
responses are the fixed messages "Article saved" and
"Article added to history". -/
theorem C9_insert_failure_asymmetry (article : NewsArticle) (header : String)
    (resolveUser : String → Except String String) (uid e : String)
    (h : resolveUser (extract_token header) = Except.ok uid) :
    (save_article article (some header) resolveUser (Except.error e)).result
      = Except.error ⟨500, "Failed to save article: " ++ e⟩
    ∧ (add_to_history article (some header) resolveUser
        (Except.error e)).result
      = Except.error ⟨401, "Invalid token"⟩
    ∧ (save_article article (some header) resolveUser (Except.ok ())).result
      = Except.ok "Article saved"
    ∧ (add_to_history article (some header) resolveUser
        (Except.ok ())).result
      = Except.ok "Article added to history" := by
  refine ⟨?_, ?_, ?_, ?_⟩ <;> simp [save_article, add_to_history, h]

/-- C9 instantiated at a concrete failing insert. -/
theorem C9_insert_failure_asymmetry_witness :
    ((fun _ => Except.ok "user-1" : String → Except String String)
        (extract_token "Bearer tok") = Except.ok "user-1")
    ∧ (save_article ⟨"t", "d", none, "u", none, none⟩ (some "Bearer tok")
        (fun _ => Except.ok "user-1") (Except.error "duplicate key")).result
      = Except.error ⟨500, "Failed to save article: duplicate key"⟩
    ∧ (add_to_history ⟨"t", "d", none, "u", none, none⟩ (some "Bearer tok")
        (fun _ => Except.ok "user-1") (Except.error "duplicate key")).result
      = Except.error ⟨401, "Invalid token"⟩ := by
  have h2 := C9_insert_failure_asymmetry ⟨"t", "d", none, "u", none, none⟩
    "Bearer tok" (fun _ => Except.ok "user-1") "user-1" "duplicate key" rfl
  exact ⟨rfl, h2.1, h2.2.1⟩

/-- C2 instantiated at cursor 5. -/
theorem C2_rotator_empty_fails_witness :
    get_gnews_api_key [] 5
      = (Except.error ⟨500, "GNews API keys not configured."⟩, 5) :=
  (C2_rotator_empty_fails 5).1

/-- C3 amended theorem instantiated at the two headers the spec names. -/
theorem C3_token_between_first_spaces_witness :
    extract_token "Bearer abc123" = "abc123"
    ∧ extract_token "abc123" = "abc123" := by
  constructor
  · rw [C3_token_between_first_spaces "Bearer abc123"]
    decide
  · rw [C3_token_between_first_spaces "abc123"]
    decide

/-- C4 amended theorem instantiated at a concrete upstream failure. -/
theorem C4_auth_error_asymmetry_witness :
    login (Except.error "email not confirmed")
      = Except.error ⟨401, "Invalid login credentials."⟩
    ∧ signup (Except.error "email not confirmed")
      = Except.error ⟨400, "email not confirmed"⟩ :=
  C4_auth_error_asymmetry "email not confirmed"
